import Mathlib

/-!
Verification of the JobHunts repository (audio → transcript → field
extraction → spreadsheet row pipeline).

The development shallowly embeds the Python sources:
  * `src/app.py` — the Flask variant (`extract_job_details`,
    `add_row_to_sheet`, `upload_audio`);
  * `src/package/lambda_app.py` — the Lambda variant of the same pipeline;
  * `src/code-parts/data_extraction.py` — the script variant of
    `add_row_to_sheet`.

JSON values flowing out of the extraction provider are modelled by `JVal`;
Python dicts obtained from `json.loads` are association lists over distinct
string keys with first-match lookup (`dictGet`) and replace-or-append update
(`dictSet`), which matches Python dict semantics on duplicate-free lists.
External effects (HTTP responses, sleeps, appended rows) are made explicit
data so that the control flow of the source can be proved about.
-/

namespace JobHunts

/-- A JSON value as produced by `json.loads` for a field of the provider's
payload. Strings, numbers, booleans and null cover every case the claims
need; numbers are modelled as integers. -/
inductive JVal where
  | jstr (s : String)
  | jnum (n : Int)
  | jbool (b : Bool)
  | jnull
  deriving DecidableEq, Repr

/-- Python `d.get(k)` on a dict represented as an association list:
the value at the first matching key, or `none`. -/
def dictGet (k : String) : List (String × JVal) → Option JVal
  | [] => none
  | (k₂, v) :: t => if k₂ == k then some v else dictGet k t

/-- Python `d[k] = v` on a dict represented as an association list:
replace the value at the first matching key in place, or append the new
binding at the end (Python dicts preserve insertion order). -/
def dictSet (k : String) (v : JVal) : List (String × JVal) → List (String × JVal)
  | [] => [(k, v)]
  | (k₂, v₂) :: t => if k₂ == k then (k, v) :: t else (k₂, v₂) :: dictSet k v t

/-- Python truthiness of a JSON value (`not x` in `app.py` line 132 tests
this): `None`, `False`, `0` and the empty string are falsy, everything else
modelled here is truthy. -/
def pyTruthy : JVal → Bool
  | .jstr s => s ≠ ""
  | .jnum n => n ≠ 0
  | .jbool b => b
  | .jnull => false

/-- The characters Python `str.isspace()` holds for and `str.strip()`
removes: the ASCII whitespace tab, LF, VT (`\x0b`), FF (`\x0c`), CR,
space and the separators `\x1c`-`\x1f`, plus the Unicode whitespace
code points NEL, NBSP, the Ogham space, the U+2000-U+200A spaces, the
line and paragraph separators, the narrow no-break, mathematical
space and ideographic space. -/
def pyIsSpace (c : Char) : Bool :=
  c = ' ' || c = '\t' || c = '\n' || c = '\r' || c = '\x0b' || c = '\x0c' ||
  ('\x1c' ≤ c && c ≤ '\x1f') || c = '\x85' || c = '\xa0' || c = '\u1680' ||
  ('\u2000' ≤ c && c ≤ '\u200a') || c = '\u2028' || c = '\u2029' ||
  c = '\u202f' || c = '\u205f' || c = '\u3000'

/-- Python `s.strip()`: drop leading and trailing characters for which
`str.isspace()` holds (`pyIsSpace`). -/
def pyStrip (s : String) : String :=
  String.mk (((s.toList.dropWhile pyIsSpace).reverse.dropWhile
    pyIsSpace).reverse)

/-- The status-defaulting logic of `app.py` lines 131-136 applied to
`extracted_data.get("status")`. An absent or falsy value, and a truthy
string that strips to empty, give `"applied"`; a non-blank string is kept;
`none` as a result models the `AttributeError` raised by calling `.strip()`
on a truthy non-string value, which escapes to the generic
`except Exception` handler. -/
def statusResult : Option JVal → Option JVal
  | none => some (.jstr "applied")
  | some v =>
    if pyTruthy v = false then some (.jstr "applied")
    else
      match v with
      | .jstr s => if pyStrip s == "" then some (.jstr "applied") else some (.jstr s)
      | _ => none

/-- The default-filling block of `app.py` `extract_job_details`
(lines 125-136): the four optional fields are backfilled with `"N/A"` when
absent, then the status field is set by `statusResult`. `none` models the
run that raises (non-string truthy status). -/
def applyDefaults (d : List (String × JVal)) : Option (List (String × JVal)) :=
  let d₁ := dictSet "company_name" ((dictGet "company_name" d).getD (.jstr "N/A")) d
  let d₂ := dictSet "job_role" ((dictGet "job_role" d₁).getD (.jstr "N/A")) d₁
  let d₃ := dictSet "resume_version" ((dictGet "resume_version" d₂).getD (.jstr "N/A")) d₂
  let d₄ := dictSet "platform" ((dictGet "platform" d₃).getD (.jstr "N/A")) d₃
  match statusResult (dictGet "status" d₄) with
  | none => none
  | some v => some (dictSet "status" v d₄)

/-- The four optional-field backfills of `app.py` lines 126-129, written
with all reads on the incoming dict; since each assignment touches a key
none of the later reads look up, this is provably the dict
`extract_job_details` holds before the status block (`applyDefaults_eq`
below). -/
def fillDefaults (d : List (String × JVal)) : List (String × JVal) :=
  dictSet "platform" ((dictGet "platform" d).getD (.jstr "N/A"))
    (dictSet "resume_version" ((dictGet "resume_version" d).getD (.jstr "N/A"))
      (dictSet "job_role" ((dictGet "job_role" d).getD (.jstr "N/A"))
        (dictSet "company_name" ((dictGet "company_name" d).getD (.jstr "N/A")) d)))

/-- The nested text payload of a well-formed provider body: `malformed`
models a string `json.loads` cannot parse (raising the `ValueError` of
`app.py` line 123); `parsed d` models a JSON object parsed to the dict
`d`. -/
inductive Payload where
  | malformed
  | parsed (d : List (String × JVal))
  deriving DecidableEq, Repr

/-- The body of a 2xx provider response. `badStructure` models a JSON body
that fails the structure validation of `app.py` lines 108-116 (missing
`candidates`/`content`/`parts`/`text`), raising `ValueError`; `wellFormed`
carries the nested text payload. -/
inductive Body where
  | wellFormed (payload : Payload)
  | badStructure
  deriving DecidableEq, Repr

/-- What one attempt's call to the extraction provider can come back with.
`ok` is an HTTP 2xx response (so `raise_for_status` passes) carrying a body;
`httpErr s` is a response with status `s` for which `raise_for_status`
raises `requests.exceptions.HTTPError`; `reqErr` is any other
`requests.exceptions.RequestException` (timeout, connection error). -/
inductive Resp where
  | ok (body : Body)
  | httpErr (status : Nat)
  | reqErr
  deriving DecidableEq, Repr

/-- A provider response whose status makes `raise_for_status` raise and
which the retry code of `app.py` lines 140-144 classifies as a server
error. -/
def is5xx : Resp → Bool
  | .httpErr s => 500 ≤ s && s < 600
  | _ => false

/-- What one iteration of the retry loop of `app.py` lines 100-157 does
with the response of attempt `attempt` (0-based): return a record, sleep
`2 ^ attempt` seconds and continue the loop, or raise
`Exception("API request failed")` at once. -/
inductive Step where
  | success (record : List (String × JVal))
  | retrySleep (delay : Nat)
  | failNow
  deriving DecidableEq, Repr

/-- One iteration of the retry loop of `app.py` `extract_job_details`
(lines 100-157). A 5xx `HTTPError` always sleeps `2 ^ attempt` and lets
the loop continue (lines 142-144), even on the last attempt; any other
`HTTPError` raises at once (lines 145-147); a `RequestException` or
`ValueError` (bad structure, unparseable payload) sleeps and retries only
while `attempt < 2` (lines 148-154); a parsed payload returns the
defaulted record, unless the defaulting itself raises, which the
`except Exception` clause turns into an immediate failure
(lines 155-157). -/
def attemptStep (attempt : Nat) (r : Resp) : Step :=
  match r with
  | .httpErr s =>
    if 500 ≤ s ∧ s < 600 then .retrySleep (2 ^ attempt) else .failNow
  | .reqErr =>
    if attempt < 2 then .retrySleep (2 ^ attempt) else .failNow
  | .ok .badStructure =>
    if attempt < 2 then .retrySleep (2 ^ attempt) else .failNow
  | .ok (.wellFormed .malformed) =>
    if attempt < 2 then .retrySleep (2 ^ attempt) else .failNow
  | .ok (.wellFormed (.parsed d)) =>
    match applyDefaults d with
    | some record => .success record
    | none => .failNow

/-- The observable outcome of `extract_job_details`: either a returned
record or a raised exception, together with how many attempts were made
and the list of sleep durations performed, in order. -/
inductive ExtractResult where
  | ok (record : List (String × JVal)) (attempts : Nat) (delays : List Nat)
  | error (attempts : Nat) (delays : List Nat)
  deriving DecidableEq, Repr

/-- The number of provider calls the run made. -/
def attemptsOf : ExtractResult → Nat
  | .ok _ a _ => a
  | .error a _ => a

/-- The sleeps the run performed, in seconds, in order. -/
def delaysOf : ExtractResult → List Nat
  | .ok _ _ ds => ds
  | .error _ ds => ds

/-- The retry loop `for attempt in range(3)` of `app.py`
`extract_job_details`, with `remaining` iterations left, the current
0-based `attempt` index, and the sleeps performed so far. Falling off the
loop reaches line 160 and raises
`Exception("API request failed after 3 attempts.")`. -/
def extractGo (env : Nat → Resp) : Nat → Nat → List Nat → ExtractResult
  | 0, attempt, delays => .error attempt delays
  | remaining + 1, attempt, delays =>
    match attemptStep attempt (env attempt) with
    | .success record => .ok record (attempt + 1) delays
    | .failNow => .error (attempt + 1) delays
    | .retrySleep d => extractGo env remaining (attempt + 1) (delays ++ [d])

/-- `app.py` `extract_job_details` (lines 63-160), as a function of the
environment `env` giving the provider's response to each attempt. -/
def extract_job_details (env : Nat → Resp) : ExtractResult :=
  extractGo env 3 0 []

/-- The row built by `app.py` `add_row_to_sheet` (lines 177-184):
today's date as a string, then the five fields in fixed order, with
`"N/A"` defaults (`"applied"` for status) when absent. -/
def add_row_to_sheet (today : String) (data : List (String × JVal)) : List JVal :=
  [ .jstr today,
    (dictGet "company_name" data).getD (.jstr "N/A"),
    (dictGet "job_role" data).getD (.jstr "N/A"),
    (dictGet "resume_version" data).getD (.jstr "N/A"),
    (dictGet "platform" data).getD (.jstr "N/A"),
    (dictGet "status" data).getD (.jstr "applied") ]

/-- The row built by the script variant
`src/code-parts/data_extraction.py` `add_row_to_sheet` (lines 96-104):
date, then `company_name`, `resume_version`, `platform`, `status` — the
`job_role` field is not part of the row there, and the absent-field
default is the empty string. -/
def add_row_to_sheet_script (today : String) (data : List (String × JVal)) : List JVal :=
  [ .jstr today,
    (dictGet "company_name" data).getD (.jstr ""),
    (dictGet "resume_version" data).getD (.jstr ""),
    (dictGet "platform" data).getD (.jstr ""),
    (dictGet "status" data).getD (.jstr "applied") ]

/-- A spreadsheet as a list of worksheets, each a list of rows.
`spreadsheet.get_worksheet(0)` followed by `worksheet.append_row(row)`
appends `row` at the end of worksheet index 0 and touches nothing else. -/
def appendToWorksheet0 (sheet : List (List (List JVal))) (row : List JVal) :
    List (List (List JVal)) :=
  match sheet with
  | [] => []
  | w :: rest => (w ++ [row]) :: rest

/-- A pipeline stage of the upload workflow, recorded when the handler
invokes it. -/
inductive Stage where
  | transcription
  | extraction
  | persistence
  deriving DecidableEq, Repr

/-- The observable HTTP response of the upload handler: its status code,
the `error` message of the JSON body when present, and the
`extracted_data` field when present. -/
structure Response where
  status : Nat
  error : Option String
  extracted_data : Option (List (String × JVal))
  deriving DecidableEq, Repr

/-- The validated parts of a multipart upload request: whether the form
has an `audio_data` field, the uploaded filename, and the file size in
bytes. -/
structure UploadRequest where
  hasAudioField : Bool
  filename : String
  fileSize : Nat
  deriving DecidableEq, Repr

/-- Python `s.lower()` on the ASCII filenames the claims use. -/
def strToLower (s : String) : String :=
  String.mk (s.toList.map Char.toLower)

/-- `os.path.splitext(name)[1]` for a bare filename: the suffix starting
at the last dot, except that a dot with no earlier non-dot character (a
leading-dot name such as `.hidden`) starts no extension. -/
def splitextExt (name : String) : String :=
  let cs := name.toList
  let idxs := (List.range cs.length).filter (fun i =>
    cs.getD i ' ' == '.' && (List.range i).any (fun j => cs.getD j ' ' != '.'))
  match idxs.getLast? with
  | none => ""
  | some i => String.mk (cs.drop i)

/-- The extension whitelist of `app.py` line 216. -/
def allowed_extensions : List String := [".webm", ".mp3", ".wav", ".m4a"]

/-- The fixed 500 body of `app.py` line 255. -/
def genericFailureMsg : String := "Processing failed. Please try again."

/-- `app.py` `upload_audio` (lines 201-256), as a function of the request
and of what each stage would produce: `transcript` is the transcription
outcome (`none` models a raised transcription error), `env` drives the
extraction retry loop, and `persistOk` tells whether `add_row_to_sheet`
succeeds. Returns the HTTP response paired with the list of stages the
handler invoked. Every raised exception is caught by the
`except Exception` handler of lines 252-256, which answers 500 with the
fixed generic message. -/
def upload_audio (req : UploadRequest) (transcript : Option String)
    (env : Nat → Resp) (persistOk : Bool) : Response × List Stage :=
  if req.hasAudioField = false then
    (⟨400, some "No audio file provided", none⟩, [])
  else if req.filename = "" then
    (⟨400, some "No file selected", none⟩, [])
  else if ¬ allowed_extensions.contains (strToLower (splitextExt req.filename)) then
    (⟨400, some "Invalid file type. Please upload an audio file.", none⟩, [])
  else if req.fileSize > 10 * 1024 * 1024 then
    (⟨400, some "File too large. Maximum size is 10MB.", none⟩, [])
  else
    match transcript with
    | none => (⟨500, some genericFailureMsg, none⟩, [.transcription])
    | some _ =>
      match extract_job_details env with
      | .error _ _ =>
        (⟨500, some genericFailureMsg, none⟩, [.transcription, .extraction])
      | .ok record _ _ =>
        if persistOk then
          (⟨200, none, some record⟩, [.transcription, .extraction, .persistence])
        else
          (⟨500, some genericFailureMsg, none⟩, [.transcription, .extraction, .persistence])

/-- `src/package/lambda_app.py` `extract_job_details` (lines 75-98): a
single provider call with no retry loop; `raise_for_status`, the nested
key lookups and `json.loads` each propagate their exception immediately,
and a parsed mapping is returned unchanged — no `"N/A"` backfill and no
status defaulting. The `error` strings stand for the `str(e)` text of the
propagated exception. -/
def lambda_extract_job_details (r : Resp) : Except String (List (String × JVal)) :=
  match r with
  | .httpErr s => .error ("HTTP error " ++ toString s)
  | .reqErr => .error "request exception"
  | .ok .badStructure => .error "missing key in API response"
  | .ok (.wellFormed .malformed) => .error "JSON decode error"
  | .ok (.wellFormed (.parsed d)) => .ok d

/-- `src/package/lambda_app.py` `upload_audio` (lines 126-152), as a
function of the request fields and of each stage's outcome, where a stage
outcome `Except.error e` models the stage raising an exception whose
`str(e)` text is `e`. The handler's `except Exception` clause (lines
150-152) answers 500 with `"Processing failed: " + str(e)`, embedding the
underlying detail. The Lambda variant has no extension or size check. -/
def lambda_upload_audio (hasAudioField : Bool) (filename : String)
    (transcribe : Except String String)
    (extractOut : Except String (List (String × JVal)))
    (persist : Except String Bool) : Response × List Stage :=
  if hasAudioField = false then
    (⟨400, some "No audio file part", none⟩, [])
  else if filename = "" then
    (⟨400, some "No selected file", none⟩, [])
  else
    match transcribe with
    | .error e => (⟨500, some ("Processing failed: " ++ e), none⟩, [.transcription])
    | .ok _ =>
      match extractOut with
      | .error e =>
        (⟨500, some ("Processing failed: " ++ e), none⟩, [.transcription, .extraction])
      | .ok record =>
        match persist with
        | .error e =>
          (⟨500, some ("Processing failed: " ++ e), none⟩,
            [.transcription, .extraction, .persistence])
        | .ok _ =>
          (⟨200, none, some record⟩, [.transcription, .extraction, .persistence])

/-- The record `extract_job_details` builds from an empty provider
mapping: every optional field backfilled with `"N/A"`, status defaulted
to `"applied"`. -/
def naRecord : List (String × JVal) :=
  [("company_name", .jstr "N/A"), ("job_role", .jstr "N/A"),
   ("resume_version", .jstr "N/A"), ("platform", .jstr "N/A"),
   ("status", .jstr "applied")]

/-!
Support lemmas: Python dict get/set, the normal form of the defaulting
block, the status logic, and bounds on the retry loop.
-/

theorem dictGet_dictSet_self (k : String) (v : JVal) (d : List (String × JVal)) :
    dictGet k (dictSet k v d) = some v := by
  induction d with
  | nil => simp [dictGet, dictSet]
  | cons p t ih =>
    obtain ⟨k₂, v₂⟩ := p
    by_cases h : k₂ = k
    · simp [dictGet, dictSet, h]
    · simp [dictGet, dictSet, h, ih]

theorem dictGet_dictSet_ne (k k₂ : String) (v : JVal) (d : List (String × JVal))
    (h : k₂ ≠ k) : dictGet k₂ (dictSet k v d) = dictGet k₂ d := by
  induction d with
  | nil => simp [dictGet, dictSet, Ne.symm h]
  | cons p t ih =>
    obtain ⟨k₃, v₃⟩ := p
    by_cases h₃ : k₃ = k
    · subst h₃
      simp [dictGet, dictSet, Ne.symm h]
    · by_cases h₄ : k₃ = k₂
      · simp [dictGet, dictSet, h₃, h₄, h]
      · simp [dictGet, dictSet, h₃, h₄, h, ih]

theorem fillDefaults_company_name (d : List (String × JVal)) :
    dictGet "company_name" (fillDefaults d) =
      some ((dictGet "company_name" d).getD (.jstr "N/A")) := by
  rw [fillDefaults,
    dictGet_dictSet_ne _ _ _ _ (by decide),
    dictGet_dictSet_ne _ _ _ _ (by decide),
    dictGet_dictSet_ne _ _ _ _ (by decide),
    dictGet_dictSet_self]

theorem fillDefaults_job_role (d : List (String × JVal)) :
    dictGet "job_role" (fillDefaults d) =
      some ((dictGet "job_role" d).getD (.jstr "N/A")) := by
  rw [fillDefaults,
    dictGet_dictSet_ne _ _ _ _ (by decide),
    dictGet_dictSet_ne _ _ _ _ (by decide),
    dictGet_dictSet_self]

theorem fillDefaults_resume_version (d : List (String × JVal)) :
    dictGet "resume_version" (fillDefaults d) =
      some ((dictGet "resume_version" d).getD (.jstr "N/A")) := by
  rw [fillDefaults,
    dictGet_dictSet_ne _ _ _ _ (by decide),
    dictGet_dictSet_self]

theorem fillDefaults_platform (d : List (String × JVal)) :
    dictGet "platform" (fillDefaults d) =
      some ((dictGet "platform" d).getD (.jstr "N/A")) := by
  rw [fillDefaults, dictGet_dictSet_self]

theorem fillDefaults_status (d : List (String × JVal)) :
    dictGet "status" (fillDefaults d) = dictGet "status" d := by
  rw [fillDefaults,
    dictGet_dictSet_ne _ _ _ _ (by decide),
    dictGet_dictSet_ne _ _ _ _ (by decide),
    dictGet_dictSet_ne _ _ _ _ (by decide),
    dictGet_dictSet_ne _ _ _ _ (by decide)]

theorem applyDefaults_eq (d : List (String × JVal)) :
    applyDefaults d = (statusResult (dictGet "status" d)).map
      (fun v => dictSet "status" v (fillDefaults d)) := by
  simp only [applyDefaults]
  rw [dictGet_dictSet_ne "company_name" "job_role"
      ((dictGet "company_name" d).getD (.jstr "N/A")) d (by decide)]
  rw [dictGet_dictSet_ne "job_role" "resume_version"
      ((dictGet "job_role" d).getD (.jstr "N/A")) _ (by decide),
    dictGet_dictSet_ne "company_name" "resume_version"
      ((dictGet "company_name" d).getD (.jstr "N/A")) d (by decide)]
  rw [dictGet_dictSet_ne "resume_version" "platform"
      ((dictGet "resume_version" d).getD (.jstr "N/A")) _ (by decide),
    dictGet_dictSet_ne "job_role" "platform"
      ((dictGet "job_role" d).getD (.jstr "N/A")) _ (by decide),
    dictGet_dictSet_ne "company_name" "platform"
      ((dictGet "company_name" d).getD (.jstr "N/A")) d (by decide)]
  rw [dictGet_dictSet_ne "platform" "status"
      ((dictGet "platform" d).getD (.jstr "N/A")) _ (by decide),
    dictGet_dictSet_ne "resume_version" "status"
      ((dictGet "resume_version" d).getD (.jstr "N/A")) _ (by decide),
    dictGet_dictSet_ne "job_role" "status"
      ((dictGet "job_role" d).getD (.jstr "N/A")) _ (by decide),
    dictGet_dictSet_ne "company_name" "status"
      ((dictGet "company_name" d).getD (.jstr "N/A")) d (by decide)]
  cases statusResult (dictGet "status" d) <;> simp [fillDefaults]

theorem applyDefaults_of_statusResult (d : List (String × JVal)) (v : JVal)
    (h : statusResult (dictGet "status" d) = some v) :
    applyDefaults d = some (dictSet "status" v (fillDefaults d)) := by
  rw [applyDefaults_eq, h]
  rfl

theorem statusResult_blank (v? : Option JVal)
    (h : v? = none ∨ v? = some (.jstr "") ∨
      ∃ s, v? = some (.jstr s) ∧ pyStrip s = "") :
    statusResult v? = some (.jstr "applied") := by
  rcases h with h | h | ⟨s, h, hs⟩ <;> subst h
  · rfl
  · rfl
  · by_cases he : s = ""
    · subst he; rfl
    · simp [statusResult, pyTruthy, he, hs]

theorem statusResult_nonblank (s : String) (h : pyStrip s ≠ "") :
    statusResult (some (.jstr s)) = some (.jstr s) := by
  have he : s ≠ "" := by
    intro hh
    exact h (by rw [hh]; rfl)
  simp [statusResult, pyTruthy, he, h]

theorem applyDefaults_fields (d r : List (String × JVal))
    (h : applyDefaults d = some r) :
    dictGet "company_name" r = some ((dictGet "company_name" d).getD (.jstr "N/A")) ∧
    dictGet "job_role" r = some ((dictGet "job_role" d).getD (.jstr "N/A")) ∧
    dictGet "resume_version" r = some ((dictGet "resume_version" d).getD (.jstr "N/A")) ∧
    dictGet "platform" r = some ((dictGet "platform" d).getD (.jstr "N/A")) ∧
    ∃ v, statusResult (dictGet "status" d) = some v ∧ dictGet "status" r = some v := by
  rw [applyDefaults_eq] at h
  cases hs : statusResult (dictGet "status" d) with
  | none => rw [hs] at h; simp at h
  | some v =>
    rw [hs] at h
    simp only [Option.map, Option.some.injEq] at h
    subst h
    refine ⟨?_, ?_, ?_, ?_, v, rfl, dictGet_dictSet_self _ _ _⟩ <;>
      rw [dictGet_dictSet_ne _ _ _ _ (by decide)]
    · exact fillDefaults_company_name d
    · exact fillDefaults_job_role d
    · exact fillDefaults_resume_version d
    · exact fillDefaults_platform d

theorem attemptStep_5xx (a : Nat) (r : Resp) (h : is5xx r = true) :
    attemptStep a r = .retrySleep (2 ^ a) := by
  cases r with
  | httpErr s =>
    simp only [is5xx, Bool.and_eq_true, decide_eq_true_eq] at h
    simp [attemptStep, h.1, h.2]
  | ok body => simp [is5xx] at h
  | reqErr => simp [is5xx] at h

theorem extractGo_attempts_le (env : Nat → Resp) :
    ∀ remaining attempt delays,
      attemptsOf (extractGo env remaining attempt delays) ≤ attempt + remaining := by
  intro remaining
  induction remaining with
  | zero => intro attempt delays; simp [extractGo, attemptsOf]
  | succ n ih =>
    intro attempt delays
    simp only [extractGo]
    cases attemptStep attempt (env attempt) with
    | success record => simp [attemptsOf]
    | failNow => simp [attemptsOf]
    | retrySleep d₂ =>
      have := ih (attempt + 1) (delays ++ [d₂])
      show attemptsOf (extractGo env n (attempt + 1) (delays ++ [d₂])) ≤ attempt + (n + 1)
      omega

theorem attemptStep_success_applyDefaults (a : Nat) (r : Resp)
    (record : List (String × JVal)) (h : attemptStep a r = .success record) :
    ∃ d, applyDefaults d = some record := by
  cases r with
  | httpErr s =>
    simp only [attemptStep] at h
    split at h <;> simp at h
  | reqErr =>
    simp only [attemptStep] at h
    split at h <;> simp at h
  | ok body =>
    cases body with
    | badStructure =>
      simp only [attemptStep] at h
      split at h <;> simp at h
    | wellFormed payload =>
      cases payload with
      | malformed =>
        simp only [attemptStep] at h
        split at h <;> simp at h
      | parsed d =>
        simp only [attemptStep] at h
        cases hd : applyDefaults d with
        | none => rw [hd] at h; simp at h
        | some rec₂ =>
          rw [hd] at h
          simp only [Step.success.injEq] at h
          exact ⟨d, by rw [hd, h]⟩

theorem extractGo_ok_applyDefaults (env : Nat → Resp) :
    ∀ remaining attempt delays record a ds,
      extractGo env remaining attempt delays = .ok record a ds →
      ∃ d, applyDefaults d = some record := by
  intro remaining
  induction remaining with
  | zero => intro _ _ _ _ _ h; simp [extractGo] at h
  | succ n ih =>
    intro attempt delays record a ds h
    simp only [extractGo] at h
    cases hs : attemptStep attempt (env attempt) with
    | success rec₂ =>
      rw [hs] at h
      simp only [ExtractResult.ok.injEq] at h
      obtain ⟨hrec, -, -⟩ := h
      exact hrec ▸ attemptStep_success_applyDefaults attempt (env attempt) rec₂ hs
    | failNow => rw [hs] at h; simp at h
    | retrySleep d₂ =>
      rw [hs] at h
      exact ih (attempt + 1) (delays ++ [d₂]) record a ds h

theorem extract_ok_applyDefaults (env : Nat → Resp)
    (record : List (String × JVal)) (a : Nat) (ds : List Nat)
    (h : extract_job_details env = .ok record a ds) :
    ∃ d, applyDefaults d = some record :=
  extractGo_ok_applyDefaults env 3 0 [] record a ds h

theorem extract_all_5xx (env : Nat → Resp) (h : ∀ i, i < 3 → is5xx (env i) = true) :
    extract_job_details env = .error 3 [1, 2, 4] := by
  have h0 := attemptStep_5xx 0 (env 0) (h 0 (by omega))
  have h1 := attemptStep_5xx 1 (env 1) (h 1 (by omega))
  have h2 := attemptStep_5xx 2 (env 2) (h 2 (by omega))
  simp [extract_job_details, extractGo, h0, h1, h2]

/-!
The claims.
-/

/-- C1: `extract_job_details` makes at most 3 attempts on every input; an
attempt failing with HTTP 5xx sleeps `2 ^ attempt` seconds before the loop
continues, so three 5xx failures sleep 1, 2, 4 seconds — strictly
increasing — and the run then raises the generic failure (`.error`). -/
theorem extract_retry_policy (env : Nat → Resp)
    (h : ∀ i, i < 3 → is5xx (env i) = true) :
    extract_job_details env = .error 3 [2 ^ 0, 2 ^ 1, 2 ^ 2] ∧
    (∀ env₂ : Nat → Resp, attemptsOf (extract_job_details env₂) ≤ 3) ∧
    (2 ^ 0 : Nat) < 2 ^ 1 ∧ (2 ^ 1 : Nat) < 2 ^ 2 := by
  refine ⟨?_, ?_, by norm_num, by norm_num⟩
  · rw [extract_all_5xx env h]
    norm_num
  · intro env₂
    simpa [extract_job_details] using extractGo_attempts_le env₂ 3 0 []

theorem extract_retry_policy_witness :
    extract_job_details (fun _ => .httpErr 503) = .error 3 [2 ^ 0, 2 ^ 1, 2 ^ 2] ∧
    (∀ env₂ : Nat → Resp, attemptsOf (extract_job_details env₂) ≤ 3) ∧
    (2 ^ 0 : Nat) < 2 ^ 1 ∧ (2 ^ 1 : Nat) < 2 ^ 2 :=
  extract_retry_policy (fun _ => .httpErr 503) (fun _ _ => rfl)

/-- C10: when all three attempts fail with HTTP 5xx, the code performs as
many sleeps as attempts — three sleeps for three attempts, the last one
`2 ^ 2 = 4` seconds after the third and final attempt — and only then
raises the final generic failure. -/
theorem extract_sleeps_after_final_attempt (env : Nat → Resp)
    (h : ∀ i, i < 3 → is5xx (env i) = true) :
    attemptsOf (extract_job_details env) = 3 ∧
    delaysOf (extract_job_details env) = [1, 2, 4] ∧
    (delaysOf (extract_job_details env)).length = attemptsOf (extract_job_details env) ∧
    (delaysOf (extract_job_details env)).getLast? = some (2 ^ 2) ∧
    extract_job_details env = .error 3 [1, 2, 4] := by
  rw [extract_all_5xx env h]
  exact ⟨rfl, rfl, rfl, rfl, rfl⟩

theorem extract_sleeps_after_final_attempt_witness :
    attemptsOf (extract_job_details (fun _ => .httpErr 500)) = 3 ∧
    delaysOf (extract_job_details (fun _ => .httpErr 500)) = [1, 2, 4] ∧
    (delaysOf (extract_job_details (fun _ => .httpErr 500))).length
      = attemptsOf (extract_job_details (fun _ => .httpErr 500)) ∧
    (delaysOf (extract_job_details (fun _ => .httpErr 500))).getLast? = some (2 ^ 2) ∧
    extract_job_details (fun _ => .httpErr 500) = .error 3 [1, 2, 4] :=
  extract_sleeps_after_final_attempt (fun _ => .httpErr 500) (fun _ _ => rfl)

/-- C2 counterexample: with every attempt answering 200 with an
unparseable text payload, `app.py`'s `extract_job_details` does not fail
on the first attempt — it makes 3 attempts and performs two backoff
sleeps (1s, 2s) before failing. -/
theorem extract_malformed_retries :
    extract_job_details (fun _ => .ok (.wellFormed .malformed)) = .error 3 [1, 2] ∧
    attemptsOf (extract_job_details (fun _ => .ok (.wellFormed .malformed))) ≠ 1 ∧
    delaysOf (extract_job_details (fun _ => .ok (.wellFormed .malformed))) ≠ [] :=
  ⟨rfl, by decide, by decide⟩

/-- C2 amended: an HTTP 4xx response makes `app.py`'s
`extract_job_details` fail on the first attempt with no retry and no
sleep; a malformed-JSON payload, however, is retried with backoff there
(3 attempts, sleeping 1s and 2s); in the Lambda variant every failure,
malformed JSON included, propagates at once from the single attempt. -/
theorem extract_4xx_fail_fast (env : Nat → Resp) (s : Nat)
    (h4 : env 0 = .httpErr s) (hlo : 400 ≤ s) (hhi : s < 500) :
    extract_job_details env = .error 1 [] ∧
    extract_job_details (fun _ => .ok (.wellFormed .malformed)) = .error 3 [1, 2] ∧
    lambda_extract_job_details (.ok (.wellFormed .malformed)) =
      .error "JSON decode error" := by
  refine ⟨?_, rfl, rfl⟩
  have hns : ¬ (500 ≤ s ∧ s < 600) := by omega
  simp [extract_job_details, extractGo, attemptStep, h4, hns]

theorem extract_4xx_fail_fast_witness :
    extract_job_details (fun _ => .httpErr 404) = .error 1 [] ∧
    extract_job_details (fun _ => .ok (.wellFormed .malformed)) = .error 3 [1, 2] ∧
    lambda_extract_job_details (.ok (.wellFormed .malformed)) =
      .error "JSON decode error" :=
  extract_4xx_fail_fast (fun _ => .httpErr 404) 404 rfl (by norm_num) (by norm_num)

/-- C9: a provider payload whose status field is the truthy non-string
JSON value 1 makes the defaulting block call `.strip()` on a non-string;
the resulting `AttributeError` is turned into the generic failure, so
`extract_job_details` raises instead of returning a record. -/
theorem status_nonstring_raises :
    applyDefaults [("status", .jnum 1)] = none ∧
    extract_job_details
        (fun _ => .ok (.wellFormed (.parsed [("status", .jnum 1)]))) = .error 1 [] :=
  ⟨rfl, rfl⟩

/-- C4: the record's status is exactly `"applied"` whenever the
provider's status is absent, the empty string, or whitespace only; a
non-blank string status is preserved unchanged. -/
theorem status_default_exact (d : List (String × JVal)) :
    ((dictGet "status" d = none ∨ dictGet "status" d = some (.jstr "") ∨
        (∃ s, dictGet "status" d = some (.jstr s) ∧ pyStrip s = "")) →
      ∃ r, applyDefaults d = some r ∧ dictGet "status" r = some (.jstr "applied")) ∧
    (∀ s, dictGet "status" d = some (.jstr s) → pyStrip s ≠ "" →
      ∃ r, applyDefaults d = some r ∧ dictGet "status" r = some (.jstr s)) := by
  constructor
  · intro h
    have hs : statusResult (dictGet "status" d) = some (.jstr "applied") :=
      statusResult_blank _ h
    exact ⟨_, applyDefaults_of_statusResult d _ hs, dictGet_dictSet_self _ _ _⟩
  · intro s hget hnb
    have hs : statusResult (dictGet "status" d) = some (.jstr s) := by
      rw [hget]
      exact statusResult_nonblank s hnb
    exact ⟨_, applyDefaults_of_statusResult d _ hs, dictGet_dictSet_self _ _ _⟩

theorem status_default_exact_witness :
    ∃ r, applyDefaults [("status", JVal.jstr "   ")] = some r ∧
      dictGet "status" r = some (JVal.jstr "applied") :=
  (status_default_exact [("status", JVal.jstr "   ")]).1
    (Or.inr (Or.inr ⟨"   ", rfl, rfl⟩))

/-- C3 counterexample: in the Lambda variant a run whose three stages all
succeed on the empty provider mapping answers 200 with
`extracted_data = {}` — none of the five keys is present and nothing is
backfilled, against the claim's "contains all five keys". -/
theorem lambda_upload_no_backfill :
    (lambda_upload_audio true "a.webm" (.ok "text")
        (lambda_extract_job_details (.ok (.wellFormed (.parsed [])))) (.ok true)).1
      = ⟨200, none, some []⟩ ∧
    dictGet "company_name" [] = none ∧ dictGet "job_role" [] = none ∧
    dictGet "resume_version" [] = none ∧ dictGet "platform" [] = none ∧
    dictGet "status" [] = none :=
  ⟨rfl, rfl, rfl, rfl, rfl, rfl⟩

/-- C3 amended: in `app.py`, a validated upload whose three stages
succeed answers 200 carrying the extracted record, and that record holds
all five keys — each omitted field as `"N/A"`, an omitted status as
`"applied"`; the Lambda variant instead returns the parsed provider
mapping unchanged, with no backfilling. -/
theorem valid_upload_success (req : UploadRequest) (t : String) (env : Nat → Resp)
    (record : List (String × JVal)) (a : Nat) (ds : List Nat)
    (hfield : req.hasAudioField = true) (hname : req.filename ≠ "")
    (hext : allowed_extensions.contains (strToLower (splitextExt req.filename)) = true)
    (hsize : req.fileSize ≤ 10 * 1024 * 1024)
    (hx : extract_job_details env = .ok record a ds) :
    (upload_audio req (some t) env true).1 = ⟨200, none, some record⟩ ∧
    (∃ d, applyDefaults d = some record ∧
      dictGet "company_name" record = some ((dictGet "company_name" d).getD (.jstr "N/A")) ∧
      dictGet "job_role" record = some ((dictGet "job_role" d).getD (.jstr "N/A")) ∧
      dictGet "resume_version" record = some ((dictGet "resume_version" d).getD (.jstr "N/A")) ∧
      dictGet "platform" record = some ((dictGet "platform" d).getD (.jstr "N/A")) ∧
      (∃ v, dictGet "status" record = some v) ∧
      (dictGet "status" d = none → dictGet "status" record = some (.jstr "applied"))) ∧
    (∀ d₂, lambda_extract_job_details (.ok (.wellFormed (.parsed d₂))) = .ok d₂) := by
  refine ⟨?_, ?_, fun d₂ => rfl⟩
  · have hs2 : ¬ (req.fileSize > 10 * 1024 * 1024) := by omega
    have hmem : strToLower (splitextExt req.filename) ∈ allowed_extensions := by
      simpa using hext
    simp [upload_audio, hfield, hname, hmem, hs2, hx]
  · obtain ⟨d, hd⟩ := extract_ok_applyDefaults env record a ds hx
    obtain ⟨hc, hj, hr, hp, v, hsv, hsr⟩ := applyDefaults_fields d record hd
    refine ⟨d, hd, hc, hj, hr, hp, ⟨v, hsr⟩, ?_⟩
    intro hnone
    rw [hnone] at hsv
    have hv : JVal.jstr "applied" = v := by simpa [statusResult] using hsv
    rw [hsr, ← hv]

theorem valid_upload_success_witness :
    (upload_audio ⟨true, "a.webm", 0⟩ (some "t")
        (fun _ => .ok (.wellFormed (.parsed []))) true).1 = ⟨200, none, some naRecord⟩ ∧
    (∃ d, applyDefaults d = some naRecord ∧
      dictGet "company_name" naRecord = some ((dictGet "company_name" d).getD (.jstr "N/A")) ∧
      dictGet "job_role" naRecord = some ((dictGet "job_role" d).getD (.jstr "N/A")) ∧
      dictGet "resume_version" naRecord = some ((dictGet "resume_version" d).getD (.jstr "N/A")) ∧
      dictGet "platform" naRecord = some ((dictGet "platform" d).getD (.jstr "N/A")) ∧
      (∃ v, dictGet "status" naRecord = some v) ∧
      (dictGet "status" d = none → dictGet "status" naRecord = some (.jstr "applied"))) ∧
    (∀ d₂, lambda_extract_job_details (.ok (.wellFormed (.parsed d₂))) = .ok d₂) :=
  valid_upload_success ⟨true, "a.webm", 0⟩ "t"
    (fun _ => .ok (.wellFormed (.parsed []))) naRecord 1 []
    rfl (by decide) (by decide) (by decide) rfl

/-- C5: with every attempt's text payload unparseable, the Flask handler
does not crash: the malformed payload becomes a handled failure and the
handler answers the 500 error response with the generic message. -/
theorem malformed_payload_handled (req : UploadRequest) (t : String)
    (env : Nat → Resp) (persistOk : Bool)
    (hfield : req.hasAudioField = true) (hname : req.filename ≠ "")
    (hext : allowed_extensions.contains (strToLower (splitextExt req.filename)) = true)
    (hsize : req.fileSize ≤ 10 * 1024 * 1024)
    (hm : ∀ i, i < 3 → env i = .ok (.wellFormed .malformed)) :
    (upload_audio req (some t) env persistOk).1
      = ⟨500, some genericFailureMsg, none⟩ := by
  have h0 := hm 0 (by omega)
  have h1 := hm 1 (by omega)
  have h2 := hm 2 (by omega)
  have hx : extract_job_details env = .error 3 [1, 2] := by
    simp [extract_job_details, extractGo, attemptStep, h0, h1, h2]
  have hs2 : ¬ (req.fileSize > 10 * 1024 * 1024) := by omega
  have hmem : strToLower (splitextExt req.filename) ∈ allowed_extensions := by
    simpa using hext
  simp [upload_audio, hfield, hname, hmem, hs2, hx]

theorem malformed_payload_handled_witness :
    (upload_audio ⟨true, "a.webm", 0⟩ (some "t")
        (fun _ => .ok (.wellFormed .malformed)) true).1
      = ⟨500, some genericFailureMsg, none⟩ :=
  malformed_payload_handled ⟨true, "a.webm", 0⟩ "t"
    (fun _ => .ok (.wellFormed .malformed)) true
    rfl (by decide) (by decide) (by decide) (fun _ _ => rfl)

/-- C6 counterexample: the Lambda variant's `upload_audio` answers stage
failures with a 500 whose body embeds the underlying `str(e)` detail
after "Processing failed: " — the message is not the fixed generic one
and two different stage failures produce two different bodies. -/
theorem lambda_error_embeds_detail :
    (lambda_upload_audio true "a.webm"
        (.error "Transcription failed: provider down") (.ok []) (.ok true)).1
      = ⟨500, some "Processing failed: Transcription failed: provider down", none⟩ ∧
    (lambda_upload_audio true "a.webm" (.ok "t")
        (.error "JSON decode error") (.ok true)).1
      = ⟨500, some "Processing failed: JSON decode error", none⟩ ∧
    "Processing failed: Transcription failed: provider down" ≠ genericFailureMsg ∧
    "Processing failed: Transcription failed: provider down"
      ≠ "Processing failed: JSON decode error" :=
  ⟨rfl, rfl, by decide, by decide⟩

/-- C6 amended: in `app.py` the taxonomy is flat — every response is a
400 validation error, a 200 success, or the one fixed
`⟨500, "Processing failed. Please try again."⟩` response, identical for a
transcription, extraction or persistence failure; in the Lambda variant a
stage failure instead answers 500 with "Processing failed: " followed by
the stage's own error text. -/
theorem error_taxonomy (req : UploadRequest) (transcript : Option String)
    (env : Nat → Resp) (persistOk : Bool) :
    ((upload_audio req transcript env persistOk).1.status = 400 ∨
      (upload_audio req transcript env persistOk).1.status = 200 ∨
      (upload_audio req transcript env persistOk).1
        = ⟨500, some genericFailureMsg, none⟩) ∧
    (∀ e : String,
      (lambda_upload_audio true "f.webm" (.error e) (.ok []) (.ok true)).1
        = ⟨500, some ("Processing failed: " ++ e), none⟩) := by
  refine ⟨?_, fun e => rfl⟩
  unfold upload_audio
  split_ifs <;>
    first
      | exact Or.inl rfl
      | (cases transcript with
          | none => exact Or.inr (Or.inr rfl)
          | some t =>
            cases hx : extract_job_details env with
            | error a ds => exact Or.inr (Or.inr rfl)
            | ok record a ds =>
              first
                | exact Or.inr (Or.inl rfl)
                | exact Or.inr (Or.inr rfl))

/-- C7 counterexample: on a fully-populated mapping the script variant's
`add_row_to_sheet` (`src/code-parts/data_extraction.py`) builds a 5-cell
row in which the cell after `company_name` is `resume_version` and the
`job_role` value appears nowhere, so the claimed fixed 6-column order is
false for that cited variant. -/
theorem add_row_script_omits_job_role :
    add_row_to_sheet_script "2026-01-01"
        [("company_name", .jstr "Acme"), ("job_role", .jstr "Engineer"),
         ("resume_version", .jstr "v2"), ("platform", .jstr "LinkedIn"),
         ("status", .jstr "applied")]
      = [.jstr "2026-01-01", .jstr "Acme", .jstr "v2", .jstr "LinkedIn",
         .jstr "applied"] ∧
    add_row_to_sheet_script "2026-01-01"
        [("company_name", .jstr "Acme"), ("job_role", .jstr "Engineer"),
         ("resume_version", .jstr "v2"), ("platform", .jstr "LinkedIn"),
         ("status", .jstr "applied")]
      ≠ [.jstr "2026-01-01", .jstr "Acme", .jstr "Engineer", .jstr "v2",
         .jstr "LinkedIn", .jstr "applied"] ∧
    JVal.jstr "Engineer" ∉
      add_row_to_sheet_script "2026-01-01"
        [("company_name", .jstr "Acme"), ("job_role", .jstr "Engineer"),
         ("resume_version", .jstr "v2"), ("platform", .jstr "LinkedIn"),
         ("status", .jstr "applied")] :=
  ⟨rfl, by decide, by decide⟩

/-- C7 amended: `app.py`'s `add_row_to_sheet` appends exactly one row to
worksheet index 0 (other worksheets untouched), whose head is today's
date and whose remaining cells are `company_name`, `job_role`,
`resume_version`, `platform`, `status` in that order; the script variant
(`data_extraction.py`) instead appends a 5-cell row that omits
`job_role`. -/
theorem add_row_fixed_order (today : String) (data : List (String × JVal))
    (w : List (List JVal)) (rest : List (List (List JVal))) :
    appendToWorksheet0 (w :: rest) (add_row_to_sheet today data)
      = (w ++ [add_row_to_sheet today data]) :: rest ∧
    (w ++ [add_row_to_sheet today data]).length = w.length + 1 ∧
    (add_row_to_sheet today data).head? = some (.jstr today) ∧
    (add_row_to_sheet today data).tail =
      [ (dictGet "company_name" data).getD (.jstr "N/A"),
        (dictGet "job_role" data).getD (.jstr "N/A"),
        (dictGet "resume_version" data).getD (.jstr "N/A"),
        (dictGet "platform" data).getD (.jstr "N/A"),
        (dictGet "status" data).getD (.jstr "applied") ] ∧
    (add_row_to_sheet_script today data).length = 5 ∧
    (add_row_to_sheet_script today data).tail =
      [ (dictGet "company_name" data).getD (.jstr ""),
        (dictGet "resume_version" data).getD (.jstr ""),
        (dictGet "platform" data).getD (.jstr ""),
        (dictGet "status" data).getD (.jstr "applied") ] :=
  ⟨rfl, by simp, rfl, rfl, rfl, rfl⟩

/-- C8: a POST whose multipart form lacks the `audio_data` field answers
400 at once with an empty stage trace — no transcription, extraction or
persistence is invoked — in both the Flask and the Lambda variant. -/
theorem missing_audio_field_400 (filename : String) (size : Nat)
    (transcript : Option String) (env : Nat → Resp) (persistOk : Bool)
    (tr₂ : Except String String) (ex₂ : Except String (List (String × JVal)))
    (pe₂ : Except String Bool) :
    upload_audio ⟨false, filename, size⟩ transcript env persistOk
      = (⟨400, some "No audio file provided", none⟩, []) ∧
    lambda_upload_audio false filename tr₂ ex₂ pe₂
      = (⟨400, some "No audio file part", none⟩, []) :=
  ⟨rfl, rfl⟩

end JobHunts
